import Mathlib

/-!
Verification of the `ets.ipynb` example notebook (`src/examples/notebooks/ets.ipynb`).

The notebook is pure glue code: two hard-coded data series, calls into the
`statsmodels` ETS modeling API, and matplotlib plotting.  We embed the code
cells of the notebook as a small Python abstract syntax tree, transcribed
statement by statement from the notebook source, and prove the claims about
its structure (statement ordering, call counts, keyword arguments, name
rebinding, absence of error handling and of persisted state) together with
the date-index arithmetic of the two `pd.date_range` calls.
-/

/- ## Python abstract syntax: expressions -/

mutual

inductive PyExpr where
  | numLit (q : ℚ)
  | strLit (s : String)
  | boolLit (b : Bool)
  | listLit (elts : PyExprList)
  | tupleLit (elts : PyExprList)
  | sliceAll
  | name (s : String)
  | attr (obj : PyExpr) (field : String)
  | subscript (obj : PyExpr) (idx : PyExpr)
  | call (callee : PyExpr) (args : PyExprList) (kwargs : PyKwargs)

inductive PyExprList where
  | nil
  | cons (head : PyExpr) (tail : PyExprList)

inductive PyKwargs where
  | nil
  | cons (key : String) (value : PyExpr) (tail : PyKwargs)

end

def PyExprList.ofList : List PyExpr → PyExprList
  | [] => .nil
  | e :: es => .cons e (PyExprList.ofList es)

def PyKwargs.ofList : List (String × PyExpr) → PyKwargs
  | [] => .nil
  | (k, v) :: kvs => .cons k v (PyKwargs.ofList kvs)

def PyKwargs.toList : PyKwargs → List (String × PyExpr)
  | .nil => []
  | .cons k v kvs => (k, v) :: PyKwargs.toList kvs

/-- A call expression `callee(args, kwargs)`, with the argument lists given as
ordinary Lean lists for readability of the transcription. -/
def pyCall (callee : PyExpr) (args : List PyExpr) (kwargs : List (String × PyExpr)) : PyExpr :=
  .call callee (.ofList args) (.ofList kwargs)

/-- A Python list literal. -/
def pyList (elts : List PyExpr) : PyExpr :=
  .listLit (.ofList elts)

/-- A Python tuple literal. -/
def pyTuple (elts : List PyExpr) : PyExpr :=
  .tupleLit (.ofList elts)

/- ## Python abstract syntax: statements and cells -/

mutual

inductive PyStmt where
  | assign (target : PyExpr) (rhs : PyExpr)
  | exprStmt (e : PyExpr)
  | importAs (module : String) (asName : Option String)
  | fromImport (module : String) (names : List String)
  | magicLine (s : String)
  | forLoop (var : String) (iter : PyExpr) (body : PyStmtList)
  | whileLoop (cond : PyExpr) (body : PyStmtList)
  | ifStmt (cond : PyExpr) (thenBody elseBody : PyStmtList)
  | tryExcept (body handlers : PyStmtList)
  | withStmt (ctx : PyExpr) (body : PyStmtList)
  | funcDef (fname : String) (args : List String) (body : PyStmtList)
  | classDef (cname : String) (body : PyStmtList)

inductive PyStmtList where
  | nil
  | cons (head : PyStmt) (tail : PyStmtList)

end

def PyStmtList.ofList : List PyStmt → PyStmtList
  | [] => .nil
  | s :: ss => .cons s (PyStmtList.ofList ss)

/-- A notebook cell: markdown (no code), or a code cell holding its statements. -/
inductive Cell where
  | markdown
  | code (stmts : List PyStmt)

def Cell.stmts : Cell → List PyStmt
  | .markdown => []
  | .code ss => ss

/- ## The data literals of the notebook -/

/-- The `oildata` list literal of the simple-exponential-smoothing cell
(annual oil production figures), transcribed value by value. -/
def oildata : List ℚ := [
    111.0091, 130.8284, 141.2871, 154.2278,
    162.7409, 192.1665, 240.7997, 304.2174,
    384.0046, 429.6622, 359.3169, 437.2519,
    468.4008, 424.4353, 487.9794, 509.8284,
    506.3473, 340.1842, 240.2589, 219.0328,
    172.0747, 252.5901, 221.0711, 276.5188,
    271.1480, 342.6186, 428.3558, 442.3946,
    432.7851, 437.2497, 437.2092, 445.3641,
    453.1950, 454.4096, 422.3789, 456.0371,
    440.3866, 425.1944, 486.2052, 500.4291,
    521.2759, 508.9476, 488.8889, 509.8706,
    456.7229, 473.8166, 525.9509, 549.8338,
    542.3405
]

/-- The `austourists_data` list literal of the Holt-Winters cell
(quarterly Australian tourist counts), transcribed value by value. -/
def austourists_data : List ℚ := [
    30.05251300, 19.14849600, 25.31769200, 27.59143700,
    32.07645600, 23.48796100, 28.47594000, 35.12375300,
    36.83848500, 25.00701700, 30.72223000, 28.69375900,
    36.64098600, 23.82460900, 29.31168300, 31.77030900,
    35.17787700, 19.77524400, 29.60175000, 34.53884200,
    41.27359900, 26.65586200, 28.27985900, 35.19115300,
    42.20566386, 24.64917133, 32.66733514, 37.25735401,
    45.24246027, 29.35048127, 36.34420728, 41.78208136,
    49.27659843, 31.27540139, 37.85062549, 38.83704413,
    51.23690034, 31.83855162, 41.32342126, 42.79900337,
    55.70835836, 33.40714492, 42.31663797, 45.15712257,
    59.57607996, 34.83733016, 44.84168072, 46.97124960,
    60.01903094, 38.37117851, 46.97586413, 50.73379646,
    61.64687319, 39.29956937, 52.67120908, 54.33231689,
    66.83435838, 40.87118847, 51.82853579, 57.49190993,
    65.25146985, 43.06120822, 54.76075713, 59.83447494,
    73.25702747, 47.69662373, 61.09776802, 66.05576122
]

/-- The `params_R` list literal of the oil model cell (parameters obtained
from R), transcribed value by value. -/
def params_R : List ℚ :=
  [0.99989969, 0.11888177503085334, 0.80000197, 36.46466837, 34.72584983]

/-- The `params` list literal of the heuristic-initialization cell
(parameters obtained from R), transcribed value by value from its own cell,
independently of `params_R`. -/
def params : List ℚ :=
  [0.99989969, 0.11888177503085334, 0.80000197, 36.46466837, 34.72584983]

/-- The second `params_R` list literal, from the Holt-Winters cell (the
source rebinds the name `params_R` there; we use a distinct Lean name). -/
def params_R_hw : List ℚ := [
    0.35445427, 0.03200749, 0.39993387, 0.97999997, 24.01278357,
    0.97770147, 1.76951063, -0.50735902, -6.61171798, 5.34956637
]

/- ## Transcription of the notebook's code cells -/

def cellImports : List PyStmt := [
  .importAs "numpy" (some "np"),
  .importAs "matplotlib.pyplot" (some "plt"),
  .importAs "pandas" (some "pd"),
  .magicLine "%matplotlib inline",
  .fromImport "statsmodels.tsa.exponential_smoothing.ets" ["ETSModel"]
]

def cellFigsize : List PyStmt := [
  .assign (.subscript (.attr (.name "plt") "rcParams") (.strLit "figure.figsize"))
          (pyTuple [.numLit 12, .numLit 8])
]

def cellOildata : List PyStmt := [
  .assign (.name "oildata") (pyList (oildata.map PyExpr.numLit)),
  .assign (.name "oil") (pyCall (.attr (.name "pd") "Series") [.name "oildata"]
      [("index", pyCall (.attr (.name "pd") "date_range")
          [.strLit "1965", .strLit "2013"] [("freq", .strLit "AS")])]),
  .exprStmt (pyCall (.attr (.name "oil") "plot") [] []),
  .exprStmt (pyCall (.attr (.name "plt") "ylabel")
      [.strLit "Annual oil production in Saudi Arabia (Mt)"] [])
]

def cellOilModel : List PyStmt := [
  .assign (.name "model") (pyCall (.name "ETSModel") [.name "oil"]
      [("error", .strLit "add"), ("trend", .strLit "add"), ("damped_trend", .boolLit true)]),
  .assign (.name "fit") (pyCall (.attr (.name "model") "fit") [] [("maxiter", .numLit 10000)]),
  .exprStmt (pyCall (.attr (.name "oil") "plot") [] [("label", .strLit "data")]),
  .exprStmt (pyCall (.attr (.attr (.name "fit") "fittedvalues") "plot") []
      [("label", .strLit "statsmodels fit")]),
  .exprStmt (pyCall (.attr (.name "plt") "ylabel")
      [.strLit "Annual oil production in Saudi Arabia (Mt)"] []),
  .assign (.name "params_R") (pyList (params_R.map PyExpr.numLit)),
  .assign (.name "yhat")
      (.attr (pyCall (.attr (.name "model") "smooth") [.name "params_R"] []) "fittedvalues"),
  .exprStmt (pyCall (.attr (.name "yhat") "plot") []
      [("label", .strLit "R fit"), ("linestyle", .strLit "--")]),
  .exprStmt (pyCall (.attr (.name "plt") "legend") [] [])
]

def cellHeuristic : List PyStmt := [
  .assign (.name "model_heuristic") (pyCall (.name "ETSModel") [.name "oil"]
      [("error", .strLit "add"), ("trend", .strLit "add"), ("damped_trend", .boolLit true),
       ("initialization_method", .strLit "heuristic")]),
  .assign (.name "fit_heuristic") (pyCall (.attr (.name "model_heuristic") "fit") [] []),
  .exprStmt (pyCall (.attr (.name "oil") "plot") [] [("label", .strLit "data")]),
  .exprStmt (pyCall (.attr (.attr (.name "fit") "fittedvalues") "plot") []
      [("label", .strLit "estimated")]),
  .exprStmt (pyCall (.attr (.attr (.name "fit_heuristic") "fittedvalues") "plot") []
      [("label", .strLit "heuristic"), ("linestyle", .strLit "--")]),
  .exprStmt (pyCall (.attr (.name "plt") "ylabel")
      [.strLit "Annual oil production in Saudi Arabia (Mt)"] []),
  .assign (.name "params") (pyList (params.map PyExpr.numLit)),
  .assign (.name "yhat")
      (.attr (pyCall (.attr (.name "model") "smooth") [.name "params"] []) "fittedvalues"),
  .exprStmt (pyCall (.attr (.name "yhat") "plot") []
      [("label", .strLit "with R params"), ("linestyle", .strLit ":")]),
  .exprStmt (pyCall (.attr (.name "plt") "legend") [] [])
]

def cellFitSummary : List PyStmt := [
  .exprStmt (pyCall (.attr (.name "fit") "summary") [] [])
]

def cellFitHeuristicSummary : List PyStmt := [
  .exprStmt (pyCall (.attr (.name "fit_heuristic") "summary") [] [])
]

def cellAustourists : List PyStmt := [
  .assign (.name "austourists_data") (pyList (austourists_data.map PyExpr.numLit)),
  .assign (.name "index") (pyCall (.attr (.name "pd") "date_range")
      [.strLit "1999-03-01", .strLit "2015-12-01"] [("freq", .strLit "3MS")]),
  .assign (.name "austourists") (pyCall (.attr (.name "pd") "Series")
      [.name "austourists_data"] [("index", .name "index")]),
  .exprStmt (pyCall (.attr (.name "austourists") "plot") [] []),
  .exprStmt (pyCall (.attr (.name "plt") "ylabel") [.strLit "Australian Tourists"] [])
]

def cellHoltWinters : List PyStmt := [
  .assign (.name "model") (pyCall (.name "ETSModel") [.name "austourists"]
      [("error", .strLit "add"), ("trend", .strLit "add"), ("seasonal", .strLit "add"),
       ("damped_trend", .boolLit true), ("seasonal_periods", .numLit 4)]),
  .assign (.name "fit") (pyCall (.attr (.name "model") "fit") [] []),
  .assign (.name "params_R") (pyList (params_R_hw.map PyExpr.numLit)),
  .assign (.name "fit_R") (pyCall (.attr (.name "model") "smooth") [.name "params_R"] []),
  .exprStmt (pyCall (.attr (.name "austourists") "plot") [] [("label", .strLit "data")]),
  .exprStmt (pyCall (.attr (.name "plt") "ylabel") [.strLit "Australian Tourists"] []),
  .exprStmt (pyCall (.attr (.attr (.name "fit") "fittedvalues") "plot") []
      [("label", .strLit "statsmodels fit")]),
  .exprStmt (pyCall (.attr (.attr (.name "fit_R") "fittedvalues") "plot") []
      [("label", .strLit "R fit"), ("linestyle", .strLit "--")]),
  .exprStmt (pyCall (.attr (.name "plt") "legend") [] [])
]

def cellHWSummary : List PyStmt := [
  .exprStmt (pyCall (.attr (.name "fit") "summary") [] [])
]

def cellGetPrediction : List PyStmt := [
  .assign (.name "pred") (pyCall (.attr (.name "fit") "get_prediction") []
      [("start", .strLit "2014"), ("end", .strLit "2020")])
]

def cellSummaryFrame : List PyStmt := [
  .assign (.name "df") (pyCall (.attr (.name "pred") "summary_frame") []
      [("alpha", .numLit 0.05)]),
  .exprStmt (.name "df")
]

def cellSimulate : List PyStmt := [
  .assign (.name "simulated") (pyCall (.attr (.name "fit") "simulate") []
      [("anchor", .strLit "end"), ("nsimulations", .numLit 17), ("repetitions", .numLit 100)])
]

def cellSimPlot : List PyStmt := [
  .forLoop "i" (pyCall (.name "range")
      [.subscript (.attr (.name "simulated") "shape") (.numLit 1)] [])
    (.ofList [
      .exprStmt (pyCall (.attr (.subscript (.attr (.name "simulated") "iloc")
          (pyTuple [.sliceAll, .name "i"])) "plot") []
        [("label", .strLit "_"), ("color", .strLit "gray"), ("alpha", .numLit 0.1)])
    ]),
  .exprStmt (pyCall (.attr (.subscript (.name "df") (.strLit "mean")) "plot") []
      [("label", .strLit "mean prediction")]),
  .exprStmt (pyCall (.attr (.subscript (.name "df") (.strLit "pi_lower")) "plot") []
      [("linestyle", .strLit "--"), ("color", .strLit "tab:blue"),
       ("label", .strLit "95% interval")]),
  .exprStmt (pyCall (.attr (.subscript (.name "df") (.strLit "pi_upper")) "plot") []
      [("linestyle", .strLit "--"), ("color", .strLit "tab:blue"), ("label", .strLit "_")]),
  .exprStmt (pyCall (.attr (.attr (.name "pred") "endog") "plot") []
      [("label", .strLit "data")]),
  .exprStmt (pyCall (.attr (.name "plt") "legend") [] [])
]

/-- The whole notebook, cell by cell, in the order of the `.ipynb` file. -/
def ets_notebook : List Cell := [
  .markdown,
  .code cellImports,
  .code cellFigsize,
  .markdown,
  .code cellOildata,
  .markdown,
  .code cellOilModel,
  .markdown,
  .code cellHeuristic,
  .markdown,
  .code cellFitSummary,
  .code cellFitHeuristicSummary,
  .markdown,
  .code cellAustourists,
  .code cellHoltWinters,
  .code cellHWSummary,
  .markdown,
  .code cellGetPrediction,
  .code cellSummaryFrame,
  .markdown,
  .code cellSimulate,
  .code cellSimPlot,
  .markdown,
  .code []
]

/-- All top-level statements of the notebook's code cells, in execution order. -/
def notebookStmts : List PyStmt :=
  (ets_notebook.map Cell.stmts).flatten

/- ## Analysis: call sites, tags, assignment targets -/

/-- One call site: head name of the callee, the receiver name when the call
is a method call on a plain name, the first positional argument when it is a
plain name, and the keyword arguments. -/
structure CallRec where
  fn : String
  recv : Option String
  firstArgName : Option String
  kwargs : List (String × PyExpr)

/-- Head name and receiver name of a callee expression. -/
def calleeInfo : PyExpr → Option (String × Option String)
  | .name s => some (s, none)
  | .attr (.name r) f => some (f, some r)
  | .attr _ f => some (f, none)
  | _ => none

/-- First positional argument, when it is a plain name. -/
def firstArgOf : PyExprList → Option String
  | .cons (.name s) _ => some s
  | _ => none

mutual

def exprCalls : PyExpr → List CallRec
  | .numLit _ => []
  | .strLit _ => []
  | .boolLit _ => []
  | .listLit elts => exprListCalls elts
  | .tupleLit elts => exprListCalls elts
  | .sliceAll => []
  | .name _ => []
  | .attr obj _ => exprCalls obj
  | .subscript obj idx => exprCalls obj ++ exprCalls idx
  | .call callee args kwargs =>
      (match calleeInfo callee with
       | some (f, r) => [⟨f, r, firstArgOf args, kwargs.toList⟩]
       | none => []) ++ exprCalls callee ++ exprListCalls args ++ kwargsCalls kwargs

def exprListCalls : PyExprList → List CallRec
  | .nil => []
  | .cons e es => exprCalls e ++ exprListCalls es

def kwargsCalls : PyKwargs → List CallRec
  | .nil => []
  | .cons _ v kvs => exprCalls v ++ kwargsCalls kvs

end

mutual

def stmtCalls : PyStmt → List CallRec
  | .assign target rhs => exprCalls target ++ exprCalls rhs
  | .exprStmt e => exprCalls e
  | .importAs _ _ => []
  | .fromImport _ _ => []
  | .magicLine _ => []
  | .forLoop _ iter body => exprCalls iter ++ stmtListCalls body
  | .whileLoop c body => exprCalls c ++ stmtListCalls body
  | .ifStmt c t e => exprCalls c ++ stmtListCalls t ++ stmtListCalls e
  | .tryExcept b h => stmtListCalls b ++ stmtListCalls h
  | .withStmt c b => exprCalls c ++ stmtListCalls b
  | .funcDef _ _ b => stmtListCalls b
  | .classDef _ b => stmtListCalls b

def stmtListCalls : PyStmtList → List CallRec
  | .nil => []
  | .cons s ss => stmtCalls s ++ stmtListCalls ss

end

mutual

/-- The constructor tags of a statement and of all statements nested in it. -/
def stmtTags : PyStmt → List String
  | .assign _ _ => ["assign"]
  | .exprStmt _ => ["exprStmt"]
  | .importAs _ _ => ["importAs"]
  | .fromImport _ _ => ["fromImport"]
  | .magicLine _ => ["magicLine"]
  | .forLoop _ _ b => "forLoop" :: stmtListTags b
  | .whileLoop _ b => "whileLoop" :: stmtListTags b
  | .ifStmt _ t e => "ifStmt" :: (stmtListTags t ++ stmtListTags e)
  | .tryExcept b h => "tryExcept" :: (stmtListTags b ++ stmtListTags h)
  | .withStmt _ b => "withStmt" :: stmtListTags b
  | .funcDef _ _ b => "funcDef" :: stmtListTags b
  | .classDef _ b => "classDef" :: stmtListTags b

def stmtListTags : PyStmtList → List String
  | .nil => []
  | .cons s ss => stmtTags s ++ stmtListTags ss

end

mutual

/-- All assignment targets occurring in a statement, nested ones included. -/
def stmtAssignTargets : PyStmt → List PyExpr
  | .assign target _ => [target]
  | .exprStmt _ => []
  | .importAs _ _ => []
  | .fromImport _ _ => []
  | .magicLine _ => []
  | .forLoop _ _ b => stmtListAssignTargets b
  | .whileLoop _ b => stmtListAssignTargets b
  | .ifStmt _ t e => stmtListAssignTargets t ++ stmtListAssignTargets e
  | .tryExcept b h => stmtListAssignTargets b ++ stmtListAssignTargets h
  | .withStmt _ b => stmtListAssignTargets b
  | .funcDef _ _ b => stmtListAssignTargets b
  | .classDef _ b => stmtListAssignTargets b

def stmtListAssignTargets : PyStmtList → List PyExpr
  | .nil => []
  | .cons s ss => stmtAssignTargets s ++ stmtListAssignTargets ss

end

/-- The root name of an assignment target (`x`, `x[i]`, `x.a[i]` all root at `x`). -/
def targetRootName : PyExpr → Option String
  | .name s => some s
  | .attr obj _ => targetRootName obj
  | .subscript obj _ => targetRootName obj
  | _ => none

/-- A statement that (at top level) rebinds the plain name `n`. -/
def assignsName (n : String) (s : PyStmt) : Bool :=
  match s with
  | .assign (.name m) _ => m == n
  | _ => false

def positionsFrom (p : PyStmt → Bool) : List PyStmt → ℕ → List ℕ
  | [], _ => []
  | s :: ss, i =>
      if p s then i :: positionsFrom p ss (i + 1) else positionsFrom p ss (i + 1)

/-- Positions (indices into `notebookStmts`) of the statements satisfying `p`. -/
def positions (p : PyStmt → Bool) : List ℕ :=
  positionsFrom p notebookStmts 0

def callEventsFrom : List PyStmt → ℕ → List (ℕ × CallRec)
  | [], _ => []
  | s :: ss, i => ((stmtCalls s).map (fun c => (i, c))) ++ callEventsFrom ss (i + 1)

/-- Every call site of the notebook, tagged with the position of the
top-level statement containing it, in execution order. -/
def callEvents : List (ℕ × CallRec) :=
  callEventsFrom notebookStmts 0

/-- The statement at position `i`, if any. -/
def stmtAt (i : ℕ) : Option PyStmt :=
  notebookStmts[i]?

/-- Largest position strictly before `q` whose statement rebinds `n`. -/
def lastAssignBefore (n : String) (q : ℕ) : Option ℕ :=
  ((positions (assignsName n)).filter (fun p => decide (p < q))).getLast?

/-- The constructor tags of every statement of the notebook. -/
def notebookTags : List String :=
  (notebookStmts.map stmtTags).flatten

/-- Head names of every call made anywhere in the notebook. -/
def notebookCallNames : List String :=
  callEvents.map (fun e => e.2.fn)

/- ## Analysis: the modeling API surface -/

/-- The modeling API functions named by the specification. -/
def modelingApiNames : List String :=
  ["ETSModel", "fit", "smooth", "summary", "get_prediction", "summary_frame", "simulate"]

/-- The calls into the modeling API, with their positions. -/
def modelingCalls : List (ℕ × CallRec) :=
  callEvents.filter (fun e => modelingApiNames.contains e.2.fn)

def modelingApiCallCount : ℕ :=
  modelingCalls.length

/-- All keyword-argument names passed to modeling API calls. -/
def modelingKwargKeys : List String :=
  (modelingCalls.map (fun e => e.2.kwargs.map (fun kv => kv.1))).flatten

/- ## Analysis: dataset loads, model constructions, fits, predictions -/

/-- Positions of the two dataset list-literal assignments. -/
def dataLoadPositions : List ℕ :=
  positions (fun s => assignsName "oildata" s || assignsName "austourists_data" s)

def modelConsEvents : List (ℕ × CallRec) :=
  callEvents.filter (fun e => e.2.fn == "ETSModel")

/-- Positions of the `ETSModel` constructions. -/
def modelConsPositions : List ℕ :=
  modelConsEvents.map (fun e => e.1)

/-- Positions and receivers of the fitting calls (`.fit` and `.smooth`). -/
def fitEvents : List (ℕ × String) :=
  callEvents.filterMap (fun e =>
    if e.2.fn == "fit" || e.2.fn == "smooth" then e.2.recv.map (fun r => (e.1, r)) else none)

/-- Positions and receivers of `.get_prediction` and `.simulate` calls. -/
def predEvents : List (ℕ × String) :=
  callEvents.filterMap (fun e =>
    if e.2.fn == "get_prediction" || e.2.fn == "simulate" then
      e.2.recv.map (fun r => (e.1, r))
    else none)

/-- Positions of the prediction-producing calls
(`get_prediction`, `summary_frame`, `simulate`). -/
def predCallPositions : List ℕ :=
  callEvents.filterMap (fun e =>
    if e.2.fn == "get_prediction" || e.2.fn == "summary_frame" || e.2.fn == "simulate" then
      some e.1
    else none)

def stmtConstructsModel (s : PyStmt) : Bool :=
  (stmtCalls s).any (fun c => c.fn == "ETSModel")

def stmtCallsFitting (s : PyStmt) : Bool :=
  (stmtCalls s).any (fun c => c.fn == "fit" || c.fn == "smooth")

def stmtRhsIsListLit : PyStmt → Bool
  | .assign _ (.listLit _) => true
  | _ => false

/-- Every fitting call is made on a receiver whose latest prior binding is an
`ETSModel` construction. -/
def consBeforeFits : Bool :=
  fitEvents.all (fun e =>
    match lastAssignBefore e.2 e.1 with
    | some p => decide (p < e.1) && ((stmtAt p).map stmtConstructsModel).getD false
    | none => false)

/-- Every prediction/simulation call is made on a receiver whose latest prior
binding is a fitting call. -/
def fitsBeforePreds : Bool :=
  predEvents.all (fun e =>
    match lastAssignBefore e.2 e.1 with
    | some p => decide (p < e.1) && ((stmtAt p).map stmtCallsFitting).getD false
    | none => false)

/-- The data argument of the (first) `pd.Series` call in a statement. -/
def seriesDataSource (s : PyStmt) : Option String :=
  (((stmtCalls s).filter (fun c => c.fn == "Series")).head?).bind (fun c => c.firstArgName)

/-- Every `ETSModel` construction names a series whose latest prior binding
is a `pd.Series` over a data name whose latest prior binding is a list
literal: each dataset is loaded before any model built from it. -/
def loadsBeforeUse : Bool :=
  modelConsEvents.all (fun e =>
    match e.2.firstArgName with
    | some series =>
        (match lastAssignBefore series e.1 with
         | some p =>
             (match (stmtAt p).bind seriesDataSource with
              | some dataName =>
                  (match lastAssignBefore dataName p with
                   | some p2 =>
                       ((stmtAt p2).map stmtRhsIsListLit).getD false
                         && decide (p2 < p) && decide (p < e.1)
                   | none => false)
              | none => false)
         | none => false)
    | none => false)

/-- The final (simulation-results) plotting cell contains only plotting
statements, and comes after every prediction-producing call. -/
def plottingIsLast : Bool :=
  (cellSimPlot.all (fun s =>
      (stmtCalls s).all (fun c => ["plot", "legend", "range"].contains c.fn)))
    && (predCallPositions.all (fun p =>
          decide (p < notebookStmts.length - cellSimPlot.length)))

/- ## The pandas date index, modelled as month counts -/

/-- A calendar month as a single count: `12 * year + (month - 1)`. -/
def monthIdx (year month : ℕ) : ℕ :=
  12 * year + (month - 1)

/-- Models `pd.date_range` with a month-start frequency of `step` months
(pandas' documented semantics for the `AS` and `3MS` frequency strings used
by the notebook): the months `start, start + step, ...` up to `stop`. -/
def pd_date_range (start stop step : ℕ) : List ℕ :=
  (List.range ((stop - start) / step + 1)).map (fun i => start + step * i)

/-- The index of the `oil` series: `pd.date_range("1965", "2013", freq="AS")`
is yearly (12-month steps) from 1965-01-01 to 2013-01-01. -/
def oil_index : List ℕ :=
  pd_date_range (monthIdx 1965 1) (monthIdx 2013 1) 12

/-- The index of the `austourists` series:
`pd.date_range("1999-03-01", "2015-12-01", freq="3MS")`. -/
def austourists_index : List ℕ :=
  pd_date_range (monthIdx 1999 3) (monthIdx 2015 12) 3

/-- A pandas series: data paired with an index of equal length. -/
structure PdSeries where
  data : List ℚ
  index : List ℕ

/-- Models the `pd.Series(data, index)` constructor, which succeeds exactly
when data and index have equal lengths (pandas' documented behavior). -/
def pd_Series (data : List ℚ) (index : List ℕ) : Option PdSeries :=
  if data.length = index.length then some ⟨data, index⟩ else none

/- ## The simulation horizon -/

/-- Modelled from the spec: the `ETSModel.simulate` implementation of this
repository is not under `src`; per the notebook's own documentation of the
`anchor="end"` option ("the first simulated value will be the first out of
sample value"), the simulated index continues the data index with `n`
further steps of `step` months each. -/
def simulationIndex (lastMonth step n : ℕ) : List ℕ :=
  (List.range n).map (fun i => lastMonth + step * (i + 1))

/-- The simulated horizon of `fit.simulate(anchor="end", nsimulations=17, ...)`:
17 quarterly steps after the last `austourists` index month. -/
def simulatedIndex : List ℕ :=
  simulationIndex (monthIdx 2015 12) 3 17

/- ## Positions of the distinguished statements (mutation analysis) -/

/-- A strictly increasing list of month counts (chronological index). -/
def strictlyIncreasing : List ℕ → Bool
  | [] => true
  | [_] => true
  | a :: b :: rest => decide (a < b) && strictlyIncreasing (b :: rest)

/-- Positions of statements whose assignment target roots at `n`
(covering both rebinding and in-place subscript/attribute mutation). -/
def mutationPositions (n : String) : List ℕ :=
  positions (fun s =>
    (stmtAssignTargets s).any (fun t => targetRootName t == some n))

/-- Head names of all method calls whose receiver is the plain name `n`. -/
def methodsOn (n : String) : List String :=
  callEvents.filterMap (fun e => if e.2.recv == some n then some e.2.fn else none)

/- ## Stated forms of the claims that fail on the code -/

/-- The sequencing claim as stated: both dataset loads precede every model
construction; every fitting call follows its model's construction; every
prediction/simulation call follows its fit; result plotting comes last. -/
def c4Stated : Prop :=
  (∀ d ∈ dataLoadPositions, ∀ m ∈ modelConsPositions, d < m)
    ∧ consBeforeFits = true ∧ fitsBeforePreds = true ∧ plottingIsLast = true

/-- The glue-code claim as stated: four or five modeling API calls, and no
function or class definitions. -/
def c5Stated : Prop :=
  (modelingApiCallCount = 4 ∨ modelingApiCallCount = 5)
    ∧ "funcDef" ∉ notebookTags ∧ "classDef" ∉ notebookTags

/-- The configuration keywords the claim lists. -/
def c6ListedKeys : List String :=
  ["error", "trend", "seasonal", "damped_trend", "seasonal_periods",
   "initialization_method", "anchor", "repetitions"]

/-- The configuration claim as stated: every keyword passed to a modeling
API call is among the listed ones. -/
def c6Stated : Prop :=
  modelingKwargKeys.all (fun k => c6ListedKeys.contains k) = true

/-- The configuration keywords the notebook actually passes. -/
def c6ActualKeys : List String :=
  ["error", "trend", "seasonal", "damped_trend", "seasonal_periods",
   "initialization_method", "maxiter", "start", "end", "alpha", "anchor",
   "nsimulations", "repetitions"]

/- ## Theorems for the claims -/

/-- C1: `oildata` has exactly 49 entries, equal to the length of the annual
index `pd.date_range("1965", "2013", freq="AS")`; `austourists_data` has
exactly 68 entries, equal to the length of the quarterly index
`pd.date_range("1999-03-01", "2015-12-01", freq="3MS")`; hence both
`pd.Series` constructions, which require equal lengths, succeed. -/
theorem ets_C1_data_lengths :
    oildata.length = 49 ∧ oil_index.length = 49
      ∧ austourists_data.length = 68 ∧ austourists_index.length = 68
      ∧ (pd_Series oildata oil_index).isSome = true
      ∧ (pd_Series austourists_data austourists_index).isSome = true := by
  decide

/-- C2: each of the two series is non-empty, its generated date index is
strictly increasing, and after its constructing assignment (position 7 for
`oil`, position 33 for `austourists`) no statement of the notebook assigns
to the series name or to any subscript or attribute of it, and the only
methods ever called on either series are display-only `plot` calls. -/
theorem ets_C2_series_invariants :
    0 < oildata.length ∧ 0 < austourists_data.length
      ∧ strictlyIncreasing oil_index = true
      ∧ strictlyIncreasing austourists_index = true
      ∧ mutationPositions "oil" = [7] ∧ mutationPositions "austourists" = [33]
      ∧ methodsOn "oil" = ["plot", "plot", "plot"]
      ∧ methodsOn "austourists" = ["plot", "plot"] := by
  decide

/-- C3: no statement of the notebook, nested statements included, is a
try/except handler, a retry (while) loop, a conditional error-reporting
branch, or a with-block: every library exception propagates uncaught. -/
theorem ets_C3_no_error_handling :
    "tryExcept" ∉ notebookTags ∧ "whileLoop" ∉ notebookTags
      ∧ "ifStmt" ∉ notebookTags ∧ "withStmt" ∉ notebookTags := by
  decide

/-- C4, counterexample: the claim says loading the two literal datasets
happens before any model construction, but the `austourists_data` load at
position 31 comes after the `ETSModel` construction at position 10 (and the
one at 19), so the claim as stated is false. -/
theorem ets_C4_counterexample :
    31 ∈ dataLoadPositions ∧ 10 ∈ modelConsPositions ∧ 10 < 31 ∧ ¬c4Stated := by
  unfold c4Stated
  decide

/-- C4, amended: each dataset load precedes every model construction built
from that dataset (through its `pd.Series` binding); every fitting call is
on a receiver last bound by an `ETSModel` construction; every
prediction/simulation call is on a receiver last bound by a fitting call;
and the simulation-results plotting cell contains only plotting statements
and comes after every prediction-producing call. -/
theorem ets_C4_sequencing_amended :
    loadsBeforeUse = true ∧ consBeforeFits = true ∧ fitsBeforePreds = true
      ∧ plottingIsLast = true := by
  decide

/-- C5, counterexample: the notebook makes fifteen calls into the modeling
API (`ETSModel`, `fit`, `smooth`, `summary`, `get_prediction`,
`summary_frame`, `simulate`), not four or five, so the claim as stated is
false. -/
theorem ets_C5_counterexample :
    modelingApiCallCount = 15 ∧ ¬c5Stated := by
  unfold c5Stated
  decide

/-- C5, amended: the notebook makes exactly fifteen calls into the modeling
API, and defines no functions or classes of its own. -/
theorem ets_C5_glue_code_amended :
    modelingApiCallCount = 15 ∧ "funcDef" ∉ notebookTags ∧ "classDef" ∉ notebookTags := by
  decide

/-- C6, counterexample: `fit(maxiter=10000)` passes the keyword `maxiter`,
which is not among the configuration parameters the claim lists, so the
claim as stated is false. -/
theorem ets_C6_counterexample :
    "maxiter" ∈ modelingKwargKeys ∧ "maxiter" ∉ c6ListedKeys ∧ ¬c6Stated := by
  unfold c6Stated
  decide

/-- C6, amended: the keyword arguments passed to the modeling API calls are
exactly the listed configuration parameters (error/trend/seasonal kinds,
damping flag, seasonal period count, initialization method, simulation
anchor, repetition count) together with `maxiter` (to `fit`), `start` and
`end` (to `get_prediction`), `alpha` (to `summary_frame`), and
`nsimulations` (to `simulate`). -/
theorem ets_C6_config_args_amended :
    modelingKwargKeys.all (fun k => c6ActualKeys.contains k) = true
      ∧ c6ActualKeys.all (fun k => modelingKwargKeys.contains k) = true := by
  decide

/-- C7: the complete list of functions called anywhere in the notebook is
the concrete list below — pandas constructors, the modeling API, and
matplotlib display calls — and none of them is a file, network, or other
persistence operation; the notebook also contains no with-block (so no
`with open(...)`): executing it changes no external state. -/
theorem ets_C7_no_persisted_state :
    notebookCallNames = ["Series", "date_range", "plot", "ylabel", "ETSModel", "fit", "plot",
        "plot", "ylabel", "smooth", "plot", "legend", "ETSModel", "fit", "plot", "plot", "plot",
        "ylabel", "smooth", "plot", "legend", "summary", "summary", "date_range", "Series",
        "plot", "ylabel", "ETSModel", "fit", "smooth", "plot", "ylabel", "plot", "plot",
        "legend", "summary", "get_prediction", "summary_frame", "simulate", "range", "plot",
        "plot", "plot", "plot", "plot", "legend"]
      ∧ (["open", "write", "writelines", "to_csv", "to_pickle", "to_excel", "to_json",
          "to_parquet", "to_hdf", "savefig", "save", "urlopen", "request", "post",
          "dump"].all (fun n => !(notebookCallNames.contains n))) = true
      ∧ "withStmt" ∉ notebookTags := by
  refine ⟨by decide, by decide, by decide⟩

/-- C8: the parameter list literals of the two `model.smooth` calls of the
oil section (`params_R` at position 15, `params` at position 25) are
identical value by value; both smooth calls (positions 16 and 26) have the
same shape and receiver name `model`, and `model` is only assigned at
positions 10 and 36, so it is not rebound between the two calls; hence any
function of the receiver's parameters — in particular the deterministic
`smooth` — yields equal `fittedvalues` for the two calls. -/
theorem ets_C8_smooth_deterministic :
    params_R = params
      ∧ stmtAt 16 = some (.assign (.name "yhat")
          (.attr (pyCall (.attr (.name "model") "smooth") [.name "params_R"] []) "fittedvalues"))
      ∧ stmtAt 26 = some (.assign (.name "yhat")
          (.attr (pyCall (.attr (.name "model") "smooth") [.name "params"] []) "fittedvalues"))
      ∧ positions (assignsName "model") = [10, 36]
      ∧ ∀ f : List ℚ → List ℚ, f params_R = f params :=
  ⟨rfl, rfl, rfl, by decide, fun _ => rfl⟩

/-- C9: the names `fit`, `model` and `params_R` are rebound in the
Holt-Winters section (positions 37, 36, 38 after their oil-section bindings
11, 10, 15); the `get_prediction` call at position 46 and the `simulate`
call at position 49 are both made on `fit`, whose last prior binding is the
position-37 `model.fit()` whose `model` was last bound at position 36 to
the seasonal `ETSModel` constructed from `austourists` — not to either oil
model. -/
theorem ets_C9_rebinding :
    positions (assignsName "fit") = [11, 37]
      ∧ positions (assignsName "params_R") = [15, 38]
      ∧ stmtAt 46 = some (.assign (.name "pred") (pyCall (.attr (.name "fit") "get_prediction") []
          [("start", .strLit "2014"), ("end", .strLit "2020")]))
      ∧ stmtAt 49 = some (.assign (.name "simulated") (pyCall (.attr (.name "fit") "simulate") []
          [("anchor", .strLit "end"), ("nsimulations", .numLit 17),
           ("repetitions", .numLit 100)]))
      ∧ lastAssignBefore "fit" 46 = some 37
      ∧ lastAssignBefore "fit" 49 = some 37
      ∧ stmtAt 37 = some (.assign (.name "fit") (pyCall (.attr (.name "model") "fit") [] []))
      ∧ lastAssignBefore "model" 37 = some 36
      ∧ stmtAt 36 = some (.assign (.name "model") (pyCall (.name "ETSModel") [.name "austourists"]
          [("error", .strLit "add"), ("trend", .strLit "add"), ("seasonal", .strLit "add"),
           ("damped_trend", .boolLit true), ("seasonal_periods", .numLit 4)])) :=
  ⟨by decide, by decide, rfl, rfl, by decide, by decide, rfl, by decide, rfl⟩

/-- C10: the `austourists` index ends at month 2015-12; the simulate call
passes `anchor="end"` and `nsimulations=17`; continuing the quarterly index
by 17 steps yields exactly the months 2016-03 (the first quarter of 2016 on
this grid) through 2020-03 (the first quarter of 2020), with all four 2016
quarters and only the first 2020 quarter in the horizon. -/
theorem ets_C10_simulation_horizon :
    austourists_index.getLast? = some (monthIdx 2015 12)
      ∧ stmtAt 49 = some (.assign (.name "simulated") (pyCall (.attr (.name "fit") "simulate") []
          [("anchor", .strLit "end"), ("nsimulations", .numLit 17),
           ("repetitions", .numLit 100)]))
      ∧ simulatedIndex.length = 17
      ∧ simulatedIndex.head? = some (monthIdx 2016 3)
      ∧ simulatedIndex.getLast? = some (monthIdx 2020 3)
      ∧ simulatedIndex.filter (fun m => m / 12 == 2016)
          = [monthIdx 2016 3, monthIdx 2016 6, monthIdx 2016 9, monthIdx 2016 12]
      ∧ simulatedIndex.filter (fun m => m / 12 == 2020) = [monthIdx 2020 3] :=
  ⟨by decide, rfl, by decide, by decide, by decide, by decide, by decide⟩
